import Mathlib

/-!
Verification of the cocobakes brownie-builder configurator core.

The definitions below are a shallow embedding of the order-configuration
and pricing code of the repository:
  - business constants (src/constants, the application constants module);
  - the catalog registry (src/data/brownie-builder.ts);
  - the selection-state operations and the pricing computation
    (src/components/react/BrownieBuilder.tsx);
  - the message formatter and URL builder (src/utils/index.ts).

JavaScript numbers are embedded as exact rationals (prices, discounts)
and integers (quantities); strings are Lean strings.
-/

namespace CocoBakes

/-- Business contact constants, from the application constants module. -/
structure Business where
  NAME : String
  TAGLINE : String
  LOCATION : String
  PHONE : String
  PHONE_RAW : String
  EMAIL : String
  WHATSAPP_NUMBER : String

def BUSINESS : Business :=
  { NAME := "CocoBakes"
    TAGLINE := "Handcrafted Brownies from Nepal"
    LOCATION := "Lalitpur, Nepal"
    PHONE := "+977 9849805290"
    PHONE_RAW := "9779849805290"
    EMAIL := "cocobakesnp@gmail.com"
    WHATSAPP_NUMBER := "9779849805290" }

/-- Social media URLs, from the application constants module. -/
structure SocialUrls where
  INSTAGRAM : String
  INSTAGRAM_DM : String
  FACEBOOK : String
  WHATSAPP : String
  GOOGLE_MAPS : String

def SOCIAL_URLS : SocialUrls :=
  { INSTAGRAM := "https://instagram.com/cocobakes.np"
    INSTAGRAM_DM := "https://ig.me/m/cocobakes.np"
    FACEBOOK := "https://facebook.com/cocobakes.np"
    WHATSAPP := "https://wa.me/" ++ BUSINESS.WHATSAPP_NUMBER
    GOOGLE_MAPS := "https://maps.google.com/?q=Lalitpur,Nepal" }

/-- Pricing display constants, from the application constants module. -/
structure Pricing where
  CURRENCY : String
  CURRENCY_LOCALE : String

def PRICING : Pricing := { CURRENCY := "NPR", CURRENCY_LOCALE := "en-NP" }

/-- A priced catalog option (the BuilderOption type of the data module). -/
structure BuilderOption where
  id : String
  name : String
  price : ℚ
  description : Option String := none
deriving DecidableEq

/-- A named bounded category of catalog options. -/
structure BuilderCategory where
  id : String
  name : String
  description : String
  required : Bool
  maxSelections : ℕ
  options : List BuilderOption
deriving DecidableEq

/-- A quantity preset pairing a quantity with a percent discount. -/
structure QuantityPreset where
  quantity : ℤ
  label : String
  discount : ℚ
deriving DecidableEq

/-- The quantity bounds and presets record. -/
structure QuantityOptions where
  min : ℤ
  max : ℤ
  presets : List QuantityPreset
deriving DecidableEq

/-- Base options, from src/data/brownie-builder.ts. -/
def bases : BuilderCategory :=
  { id := "base"
    name := "Choose Your Base"
    description := "Start with your favorite brownie base"
    required := true
    maxSelections := 1
    options :=
      [ { id := "classic", name := "Classic Fudge Brownie", price := 150,
          description := some "Rich, dense chocolate brownie" }
      , { id := "walnut", name := "Walnut Brownie", price := 180,
          description := some "Classic brownie with crunchy walnuts" }
      , { id := "blondie", name := "Blondie", price := 140,
          description := some "Vanilla-based butterscotch brownie" }
      , { id := "cheesecake", name := "Cheesecake Brownie", price := 200,
          description := some "Swirled cream cheese layer" }
      , { id := "redvelvet", name := "Red Velvet Brownie", price := 190,
          description := some "Velvety red with cream cheese" } ] }

/-- Topping options, from src/data/brownie-builder.ts. -/
def toppings : BuilderCategory :=
  { id := "toppings"
    name := "Add Toppings"
    description := "Choose up to 3 toppings"
    required := false
    maxSelections := 3
    options :=
      [ { id := "chocochips", name := "Chocolate Chips", price := 30 }
      , { id := "caramel", name := "Caramel Drizzle", price := 40 }
      , { id := "seaSalt", name := "Sea Salt Flakes", price := 20 }
      , { id := "oreo", name := "Oreo Crumble", price := 35 }
      , { id := "nutella", name := "Nutella Swirl", price := 50 }
      , { id := "peanutButter", name := "Peanut Butter Drizzle", price := 45 }
      , { id := "coconut", name := "Toasted Coconut", price := 25 }
      , { id := "sprinkles", name := "Rainbow Sprinkles", price := 20 } ] }

/-- Extra options, from src/data/brownie-builder.ts. -/
def extras : BuilderCategory :=
  { id := "extras"
    name := "Special Add-ons"
    description := "Make it extra special (max 2)"
    required := false
    maxSelections := 2
    options :=
      [ { id := "icecream", name := "Vanilla Ice Cream Scoop", price := 80 }
      , { id := "whippedcream", name := "Whipped Cream", price := 40 }
      , { id := "hotfudge", name := "Hot Fudge Sauce", price := 50 }
      , { id := "berries", name := "Fresh Berries", price := 70 }
      , { id := "giftbox", name := "Gift Box Packaging", price := 100 } ] }

/-- Quantity bounds and presets, from src/data/brownie-builder.ts. -/
def quantityOptions : QuantityOptions :=
  { min := 1
    max := 24
    presets :=
      [ { quantity := 4, label := "Box of 4", discount := 0 }
      , { quantity := 6, label := "Box of 6", discount := 5 }
      , { quantity := 12, label := "Dozen", discount := 10 }
      , { quantity := 24, label := "Party Pack (24)", discount := 15 } ] }

/-- The selection state of the builder component. -/
structure SelectionState where
  base : Option BuilderOption
  toppings : List BuilderOption
  extras : List BuilderOption
  quantity : ℤ
deriving DecidableEq

/-- The initial selection state of the component. -/
def initialSelections : SelectionState :=
  { base := none, toppings := [], extras := [], quantity := 4 }

/-- The price breakdown computed by the pricing memo of the component. -/
structure PriceBreakdown where
  unitPrice : ℚ
  totalPrice : ℚ
  discount : ℚ
  finalPrice : ℚ
deriving DecidableEq

/--
The pricing computation of BrownieBuilder.tsx (the useMemo block).
The unit price accumulates the base price when a base is selected, then
folds the topping and extra prices; the JavaScript fallback of the form
p.discount-or-zero coincides with this match since the fallback value is
itself zero.
-/
def computePricing (selections : SelectionState) : PriceBreakdown :=
  let unit : ℚ :=
    (match selections.base with
      | some base => base.price
      | none => 0)
    + selections.toppings.foldl (fun sum t => sum + t.price) 0
    + selections.extras.foldl (fun sum e => sum + e.price) 0
  let total := unit * (selections.quantity : ℚ)
  let preset := quantityOptions.presets.find? (fun p => p.quantity == selections.quantity)
  let discountPercent :=
    match preset with
    | some p => p.discount
    | none => 0
  let discountAmount := total * discountPercent / 100
  let final := total - discountAmount
  { unitPrice := unit, totalPrice := total, discount := discountPercent, finalPrice := final }

/-- The preset-discount lookup performed inside the pricing computation. -/
def discountPercentFor (q : ℤ) : ℚ :=
  match quantityOptions.presets.find? (fun p => p.quantity == q) with
  | some p => p.discount
  | none => 0

/-- The discount amount computed inside the pricing computation. -/
def discountAmountOf (s : SelectionState) : ℚ :=
  (computePricing s).totalPrice * (computePricing s).discount / 100

/-- The two multi-select categories of the builder. -/
inductive MultiCategory where
  | toppings
  | extras
deriving DecidableEq

/-- The selection list of a multi-select category. -/
def categorySelections (s : SelectionState) : MultiCategory → List BuilderOption
  | .toppings => s.toppings
  | .extras => s.extras

/--
The toggle step of handleMultiSelect in BrownieBuilder.tsx, acting on the
selection list of one category: remove the option when an item with the
same id is present, append it when the bound allows, otherwise leave the
list unchanged.
-/
def toggleMultiSelect (current : List BuilderOption) (option : BuilderOption)
    (maxSelections : ℕ) : List BuilderOption :=
  if current.any (fun item => item.id == option.id) then
    current.filter (fun item => !(item.id == option.id))
  else if current.length < maxSelections then
    current ++ [option]
  else
    current

/-- The state update of handleMultiSelect in BrownieBuilder.tsx. -/
def handleMultiSelect (s : SelectionState) (category : MultiCategory)
    (option : BuilderOption) (maxSelections : ℕ) : SelectionState :=
  match category with
  | .toppings => { s with toppings := toggleMultiSelect s.toppings option maxSelections }
  | .extras => { s with extras := toggleMultiSelect s.extras option maxSelections }

/-- The clamping computation of handleQuantityChange in BrownieBuilder.tsx. -/
def setQuantity (qty : ℤ) : ℤ :=
  max quantityOptions.min (min quantityOptions.max qty)

/-- The state update of handleQuantityChange in BrownieBuilder.tsx. -/
def handleQuantityChange (s : SelectionState) (qty : ℤ) : SelectionState :=
  { s with quantity := setQuantity qty }

/--
The numeric value fed to handleQuantityChange by the quantity input:
the component parses the field text and falls back to 1 on a failed
parse; since the parse result 0 is falsy in JavaScript, it also falls
back to 1. A failed parse (NaN) is embedded as none.
-/
def quantityInputValue (parsed : Option ℤ) : ℤ :=
  match parsed with
  | some n => if n = 0 then 1 else n
  | none => 1

/--
The price formatter of src/utils/index.ts. The locale digit grouping of
the JavaScript number rendering is abstracted to the plain decimal
rendering of the number.
-/
def formatPrice (price : ℚ) : String :=
  PRICING.CURRENCY ++ " " ++ toString price

/-- The order-details record passed to the message formatter. -/
structure OrderDetails where
  baseName : String
  toppings : List String
  extras : List String
  quantity : ℤ
  unitPrice : ℚ
  discount : ℚ
  finalPrice : ℚ
deriving DecidableEq

/--
The order message formatter generateOrderMessage of src/utils/index.ts,
with each sequential string append of the source mirrored by one let
binding.
-/
def generateOrderMessage (details : OrderDetails) : String :=
  let message := "Hi! I would like to order from " ++ BUSINESS.NAME ++ " 🍫\n\n"
  let message := message ++ "I\x27d like " ++ toString details.quantity ++ " piece"
    ++ (if 1 < details.quantity then "s" else "") ++ " of " ++ details.baseName
  let message :=
    if 0 < details.toppings.length then
      message ++ " with " ++ String.intercalate ", " details.toppings ++ " as toppings"
    else message
  let message :=
    if 0 < details.extras.length then
      message ++ ", and " ++ String.intercalate ", " details.extras ++ " as add-ons"
    else message
  let message := message ++ ".\n\n"
  let message := message ++ "Order Summary:\n"
  let message := message ++ "- Base: " ++ details.baseName ++ "\n"
  let message :=
    if 0 < details.toppings.length then
      message ++ "- Toppings: " ++ String.intercalate ", " details.toppings ++ "\n"
    else message
  let message :=
    if 0 < details.extras.length then
      message ++ "- Add-ons: " ++ String.intercalate ", " details.extras ++ "\n"
    else message
  let message := message ++ "- Quantity: " ++ toString details.quantity ++ " pieces\n"
  let message := message ++ "- Price per piece: " ++ formatPrice details.unitPrice ++ "\n"
  let message :=
    if 0 < details.discount then
      message ++ "- Discount: " ++ toString details.discount ++ "% off\n"
    else message
  let message := message ++ "- Total: " ++ formatPrice details.finalPrice ++ "\n"
  let message := message ++ "\nDelivery to " ++ BUSINESS.LOCATION ++ ".\n\nThank you! 😊"
  message

/--
The createOrderMessage callback of BrownieBuilder.tsx: it returns the
empty string when no base is selected, otherwise it formats the order
from the selections and the computed pricing.
-/
def createOrderMessage (selections : SelectionState) : String :=
  match selections.base with
  | none => ""
  | some base =>
    let pricing := computePricing selections
    generateOrderMessage
      { baseName := base.name
        toppings := selections.toppings.map (fun t => t.name)
        extras := selections.extras.map (fun e => e.name)
        quantity := selections.quantity
        unitPrice := pricing.unitPrice
        discount := pricing.discount
        finalPrice := pricing.finalPrice }

/-- Characters the ECMAScript component encoder leaves unescaped besides
the alphanumeric characters. -/
def uriMarks : List Char := ['-', '_', '.', '!', '~', '*', Char.ofNat 39, '(', ')']

/-- UTF-8 byte sequence of a code point, each byte as a natural number. -/
def utf8Bytes (n : ℕ) : List ℕ :=
  if n < 128 then [n]
  else if n < 2048 then [192 + n / 64, 128 + n % 64]
  else if n < 65536 then [224 + n / 4096, 128 + n / 64 % 64, 128 + n % 64]
  else [240 + n / 262144, 128 + n / 4096 % 64, 128 + n / 64 % 64, 128 + n % 64]

/-- Uppercase hexadecimal digit of a value below 16. -/
def hexDigit (n : ℕ) : Char :=
  if n < 10 then Char.ofNat (48 + n) else Char.ofNat (55 + n)

/-- Percent-escape of one byte value. -/
def percentByte (n : ℕ) : String :=
  String.mk ['%', hexDigit (n / 16), hexDigit (n % 16)]

/--
Model of the ECMAScript encodeURIComponent builtin called by
buildWhatsAppUrl: alphanumeric characters and the unescaped marks are
kept, every other character is percent-escaped byte by byte in UTF-8.
-/
def encodeURIComponent (s : String) : String :=
  String.join (s.data.map (fun c =>
    if c.isAlphanum || uriMarks.contains c then String.singleton c
    else String.join ((utf8Bytes c.toNat).map percentByte)))

/-- The WhatsApp deep-link builder buildWhatsAppUrl of src/utils/index.ts. -/
def buildWhatsAppUrl (message : String) : String :=
  let encodedMessage := encodeURIComponent message
  SOCIAL_URLS.WHATSAPP ++ "?text=" ++ encodedMessage

/-! Helper lemmas shared by the claim theorems. -/

theorem foldl_add_price (l : List BuilderOption) (a : ℚ) :
    l.foldl (fun sum t => sum + t.price) a = a + (l.map (fun t => t.price)).sum := by
  induction l generalizing a with
  | nil => simp
  | cons h t ih => simp [ih, add_assoc]

theorem computePricing_unitPrice (s : SelectionState) :
    (computePricing s).unitPrice =
      (match s.base with
        | some b => b.price
        | none => 0)
      + (s.toppings.map (fun t => t.price)).sum
      + (s.extras.map (fun e => e.price)).sum := by
  simp [computePricing, foldl_add_price]

theorem computePricing_discount (s : SelectionState) :
    (computePricing s).discount = discountPercentFor s.quantity := rfl

theorem presets_discount_unique :
    ∀ p1 ∈ quantityOptions.presets, ∀ p2 ∈ quantityOptions.presets,
      p1.quantity = p2.quantity → p1.discount = p2.discount := by decide

theorem discountPercentFor_eq_of_mem (p : QuantityPreset)
    (hp : p ∈ quantityOptions.presets) (q : ℤ) (hq : p.quantity = q) :
    discountPercentFor q = p.discount := by
  cases hfind : quantityOptions.presets.find? (fun r => r.quantity == q) with
  | none =>
    exact absurd (beq_iff_eq.mpr hq) (List.find?_eq_none.mp hfind p hp)
  | some r =>
    have hr0 := List.find?_some hfind
    have hr : r.quantity = q := by simpa using hr0
    have hmem : r ∈ quantityOptions.presets := List.mem_of_find?_eq_some hfind
    unfold discountPercentFor
    rw [hfind]
    exact presets_discount_unique r hmem p hp (by rw [hr, hq])

theorem discountPercentFor_eq_zero (q : ℤ)
    (h : ∀ p ∈ quantityOptions.presets, p.quantity ≠ q) :
    discountPercentFor q = 0 := by
  have hnone : quantityOptions.presets.find? (fun r => r.quantity == q) = none := by
    rw [List.find?_eq_none]
    intro x hx
    simpa using h x hx
  unfold discountPercentFor
  rw [hnone]

/-! Claim theorems. -/

/--
C1: for every SelectionState, the pricing computation returns unitPrice
equal to the base price (or 0 if the base is unset) plus the sum of the
selected topping prices plus the sum of the selected extra prices, a
subtotal equal to unitPrice times quantity, a discount amount equal to
the subtotal times the discount percent divided by 100, and a final
price equal to the subtotal minus the discount amount.
-/
theorem pricing_breakdown_eq (s : SelectionState) :
    (computePricing s).unitPrice =
      (match s.base with
        | some b => b.price
        | none => 0)
      + (s.toppings.map (fun t => t.price)).sum
      + (s.extras.map (fun e => e.price)).sum
    ∧ (computePricing s).totalPrice = (computePricing s).unitPrice * (s.quantity : ℚ)
    ∧ discountAmountOf s = (computePricing s).totalPrice * (computePricing s).discount / 100
    ∧ (computePricing s).finalPrice = (computePricing s).totalPrice - discountAmountOf s :=
  ⟨computePricing_unitPrice s, rfl, rfl, rfl⟩

/--
C2: the discount percent of the pricing computation is the discount of
the preset whose quantity field is exactly the selected quantity, and 0
when no preset matches exactly; in particular quantity 13, strictly
between the presets at 12 and 24, gets discount 0.
-/
theorem discount_exact_match (s : SelectionState) :
    (computePricing s).discount = discountPercentFor s.quantity
    ∧ (∀ p ∈ quantityOptions.presets, p.quantity = s.quantity →
        (computePricing s).discount = p.discount)
    ∧ ((∀ p ∈ quantityOptions.presets, p.quantity ≠ s.quantity) →
        (computePricing s).discount = 0)
    ∧ discountPercentFor 13 = 0 := by
  refine ⟨rfl, ?_, ?_, by decide⟩
  · intro p hp hq
    rw [computePricing_discount]
    exact discountPercentFor_eq_of_mem p hp s.quantity hq
  · intro h
    rw [computePricing_discount]
    exact discountPercentFor_eq_zero s.quantity h

/-- Witness for C2 at quantity 12 (preset Dozen, ten percent). -/
theorem discount_exact_match_witness :
    (computePricing { initialSelections with quantity := 12 }).discount = 10
    ∧ discountPercentFor 13 = 0 :=
  ⟨(discount_exact_match { initialSelections with quantity := 12 }).2.1
      { quantity := 12, label := "Dozen", discount := 10 } (by decide) rfl,
    (discount_exact_match initialSelections).2.2.2⟩

/--
C4: the quantity clamp is idempotent and always lands in the inclusive
range given by the quantity bounds, and the input-field fallback value
for a failed numeric parse is the in-range integer 1, so the stored
quantity is always a defined in-range integer.
-/
theorem set_quantity_idempotent_clamped :
    (∀ x : ℤ, setQuantity (setQuantity x) = setQuantity x
      ∧ quantityOptions.min ≤ setQuantity x ∧ setQuantity x ≤ quantityOptions.max)
    ∧ quantityInputValue none = 1
    ∧ (∀ (s : SelectionState) (parsed : Option ℤ),
        quantityOptions.min ≤ (handleQuantityChange s (quantityInputValue parsed)).quantity
        ∧ (handleQuantityChange s (quantityInputValue parsed)).quantity ≤ quantityOptions.max) := by
  refine ⟨?_, rfl, ?_⟩
  · intro x
    unfold setQuantity quantityOptions
    dsimp only
    omega
  · intro s parsed
    rcases parsed with _ | n <;>
      simp only [quantityInputValue, handleQuantityChange, setQuantity, quantityOptions] <;>
      omega

/-- A toggle that would add an unselected option to a selection already
holding maxSelections items returns the selection unchanged. -/
theorem toggleMultiSelect_at_capacity (cur : List BuilderOption) (o : BuilderOption)
    (k : ℕ) (hlen : cur.length = k)
    (hany : cur.any (fun item => item.id == o.id) = false) :
    toggleMultiSelect cur o k = cur := by
  unfold toggleMultiSelect
  rw [hany]
  simp [hlen]

/-- One toggle step keeps the selection length within the bound. -/
theorem toggleMultiSelect_length_le (cur : List BuilderOption) (o : BuilderOption)
    (k : ℕ) (h : cur.length ≤ k) : (toggleMultiSelect cur o k).length ≤ k := by
  unfold toggleMultiSelect
  split_ifs with h1 h2
  · exact le_trans (List.length_filter_le _ _) h
  · simpa [List.length_append] using h2
  · exact h

/-- Folding toggle steps from a within-bound list stays within the bound. -/
theorem foldl_toggle_length_le (k : ℕ) (ops : List BuilderOption)
    (l : List BuilderOption) (h : l.length ≤ k) :
    (ops.foldl (fun cur o => toggleMultiSelect cur o k) l).length ≤ k := by
  induction ops generalizing l with
  | nil => exact h
  | cons o rest ih => exact ih _ (toggleMultiSelect_length_le l o k h)

/--
C3: along any sequence of toggle calls on a category bounded by k,
starting from the empty selection, the selection size stays at most k
after every call (every take of the call sequence); and a toggle that
attempts to add an unselected option when the selection already holds
exactly k items leaves the whole selection state unchanged.
-/
theorem multi_select_bound :
    (∀ (k : ℕ) (ops : List BuilderOption) (n : ℕ),
      (((ops.take n).foldl (fun cur o => toggleMultiSelect cur o k) [])).length ≤ k)
    ∧ (∀ (s : SelectionState) (category : MultiCategory) (o : BuilderOption) (k : ℕ),
        (categorySelections s category).length = k →
        (categorySelections s category).any (fun item => item.id == o.id) = false →
        handleMultiSelect s category o k = s) := by
  constructor
  · intro k ops n
    exact foldl_toggle_length_le k (ops.take n) [] (Nat.zero_le k)
  · intro s category o k hlen hany
    cases category
    · show { s with toppings := toggleMultiSelect s.toppings o k } = s
      rw [toggleMultiSelect_at_capacity s.toppings o k hlen hany]
    · show { s with extras := toggleMultiSelect s.extras o k } = s
      rw [toggleMultiSelect_at_capacity s.extras o k hlen hany]

/-- Witness for C3 with the toppings bound 3: a two-step toggle sequence
stays within the bound, and a fourth distinct topping is rejected on a
full selection. -/
theorem multi_select_bound_witness :
    ((([ { id := "chocochips", name := "Chocolate Chips", price := 30 }
        , { id := "caramel", name := "Caramel Drizzle", price := 40 } ].take 2).foldl
        (fun cur o => toggleMultiSelect cur o 3) [])).length ≤ 3
    ∧ handleMultiSelect
        { base := none
          toppings :=
            [ { id := "chocochips", name := "Chocolate Chips", price := 30 }
            , { id := "caramel", name := "Caramel Drizzle", price := 40 }
            , { id := "seaSalt", name := "Sea Salt Flakes", price := 20 } ]
          extras := []
          quantity := 4 }
        MultiCategory.toppings
        { id := "oreo", name := "Oreo Crumble", price := 35 } 3 =
      { base := none
        toppings :=
          [ { id := "chocochips", name := "Chocolate Chips", price := 30 }
          , { id := "caramel", name := "Caramel Drizzle", price := 40 }
          , { id := "seaSalt", name := "Sea Salt Flakes", price := 20 } ]
        extras := []
        quantity := 4 } :=
  ⟨multi_select_bound.1 3
      [ { id := "chocochips", name := "Chocolate Chips", price := 30 }
      , { id := "caramel", name := "Caramel Drizzle", price := 40 } ] 2,
    multi_select_bound.2
      { base := none
        toppings :=
          [ { id := "chocochips", name := "Chocolate Chips", price := 30 }
          , { id := "caramel", name := "Caramel Drizzle", price := 40 }
          , { id := "seaSalt", name := "Sea Salt Flakes", price := 20 } ]
        extras := []
        quantity := 4 }
      MultiCategory.toppings
      { id := "oreo", name := "Oreo Crumble", price := 35 } 3 rfl (by decide)⟩

/--
C5: toggling the same option twice in immediate succession, on a
selection list within its bound whose entries sharing the id of the
toggled option are that option itself, restores the selection set: the
members of the list after the double toggle are exactly the members
before it.
-/
theorem toggle_double_membership (cur : List BuilderOption) (o : BuilderOption)
    (k : ℕ) (hlen : cur.length ≤ k)
    (hid : ∀ x ∈ cur, x.id = o.id → x = o) :
    ∀ x, x ∈ toggleMultiSelect (toggleMultiSelect cur o k) o k ↔ x ∈ cur := by
  by_cases hsel : cur.any (fun item => item.id == o.id) = true
  · have ho : o ∈ cur := by
      rcases List.any_eq_true.mp hsel with ⟨x, hx, hxid⟩
      have hxid' : x.id = o.id := by simpa using hxid
      exact hid x hx hxid' ▸ hx
    have hstep1 : toggleMultiSelect cur o k = cur.filter (fun item => !(item.id == o.id)) := by
      simp [toggleMultiSelect, hsel]
    have hflt : (cur.filter (fun item => !(item.id == o.id))).length < cur.length :=
      List.length_filter_lt_length_iff_exists.mpr ⟨o, ho, by simp⟩
    have hlt : (cur.filter (fun item => !(item.id == o.id))).length < k :=
      lt_of_lt_of_le hflt hlen
    have hany2 : (cur.filter (fun item => !(item.id == o.id))).any
        (fun item => item.id == o.id) = false := by
      simp [List.any_eq_true, List.mem_filter]
    have hstep2 : toggleMultiSelect (cur.filter (fun item => !(item.id == o.id))) o k =
        cur.filter (fun item => !(item.id == o.id)) ++ [o] := by
      simp [toggleMultiSelect, hany2, hlt]
    intro x
    rw [hstep1, hstep2]
    simp only [List.mem_append, List.mem_filter, List.mem_singleton]
    constructor
    · rintro (⟨hx, _⟩ | rfl)
      · exact hx
      · exact ho
    · intro hx
      by_cases hxid : x.id = o.id
      · exact Or.inr (hid x hx hxid)
      · exact Or.inl ⟨hx, by simpa using hxid⟩
  · have hsel' : cur.any (fun item => item.id == o.id) = false :=
      Bool.not_eq_true _ ▸ eq_false_of_ne_true hsel
    by_cases hlt : cur.length < k
    · have hstep1 : toggleMultiSelect cur o k = cur ++ [o] := by
        simp [toggleMultiSelect, hsel', hlt]
      have hall : ∀ x ∈ cur, (!(x.id == o.id)) = true := by
        intro x hx
        have := List.any_eq_false.mp hsel' x hx
        simpa using this
      have hstep2 : toggleMultiSelect (cur ++ [o]) o k = cur := by
        have hany2 : (cur ++ [o]).any (fun item => item.id == o.id) = true := by
          simp [List.any_eq_true]
        have hfil : (cur ++ [o]).filter (fun item => !(item.id == o.id)) = cur := by
          rw [List.filter_append]
          rw [List.filter_eq_self.mpr hall]
          simp
        simp [toggleMultiSelect, hany2, hfil]
      rw [hstep1, hstep2]
      intro x
      exact Iff.rfl
    · have hstep1 : toggleMultiSelect cur o k = cur := by
        simp [toggleMultiSelect, hsel', hlt]
      rw [hstep1, hstep1]
      intro x
      exact Iff.rfl

/-- Witness for C5: double-toggling one topping on a singleton selection. -/
theorem toggle_double_membership_witness :
    { id := "chocochips", name := "Chocolate Chips", price := 30 } ∈
      toggleMultiSelect
        (toggleMultiSelect [ { id := "chocochips", name := "Chocolate Chips", price := 30 } ]
          { id := "chocochips", name := "Chocolate Chips", price := 30 } 3)
        { id := "chocochips", name := "Chocolate Chips", price := 30 } 3
    ↔ ({ id := "chocochips", name := "Chocolate Chips", price := 30 } : BuilderOption) ∈
      [ ( { id := "chocochips", name := "Chocolate Chips", price := 30 } : BuilderOption) ] :=
  toggle_double_membership
    [ { id := "chocochips", name := "Chocolate Chips", price := 30 } ]
    { id := "chocochips", name := "Chocolate Chips", price := 30 } 3
    (by decide) (by decide)
    { id := "chocochips", name := "Chocolate Chips", price := 30 }

/--
C6: the order-message callback returns the empty string on a selection
state whose base is unset, so no non-empty order message is produced for
an order with no base.
-/
theorem empty_base_guard (s : SelectionState) (h : s.base = none) :
    createOrderMessage s = "" := by
  unfold createOrderMessage
  rw [h]

/-- Witness for C6 at the initial selection state. -/
theorem empty_base_guard_witness :
    initialSelections.base = none ∧ createOrderMessage initialSelections = "" :=
  ⟨rfl, empty_base_guard initialSelections rfl⟩

/--
C7: for every SelectionState the pricing output satisfies
finalPrice + discountAmount = subtotal exactly, in the exact rational
arithmetic of the embedding.
-/
theorem discount_exactness (s : SelectionState) :
    (computePricing s).finalPrice + discountAmountOf s = (computePricing s).totalPrice :=
  sub_add_cancel _ _

/--
Order message shape as the specification lists it: greeting naming the
business, a sentence naming quantity and base with plural pieces exactly
when the quantity exceeds one, a toppings clause iff toppings are
non-empty, an extras clause iff extras are non-empty, an Order Summary
block listing base, a toppings line iff any, an add-ons line iff any,
quantity, price per piece, a discount line iff the discount percent is
positive, total, then the delivery line and the thank-you line.
-/
def specOrderMessage (d : OrderDetails) : String :=
  "Hi! I would like to order from " ++ BUSINESS.NAME ++ " 🍫\n\n"
  ++ ("I\x27d like " ++ toString d.quantity ++ " piece"
      ++ (if 1 < d.quantity then "s" else "") ++ " of " ++ d.baseName)
  ++ (if 0 < d.toppings.length then
        " with " ++ String.intercalate ", " d.toppings ++ " as toppings"
      else "")
  ++ (if 0 < d.extras.length then
        ", and " ++ String.intercalate ", " d.extras ++ " as add-ons"
      else "")
  ++ ".\n\n"
  ++ "Order Summary:\n"
  ++ ("- Base: " ++ d.baseName ++ "\n")
  ++ (if 0 < d.toppings.length then
        "- Toppings: " ++ String.intercalate ", " d.toppings ++ "\n"
      else "")
  ++ (if 0 < d.extras.length then
        "- Add-ons: " ++ String.intercalate ", " d.extras ++ "\n"
      else "")
  ++ ("- Quantity: " ++ toString d.quantity ++ " pieces\n")
  ++ ("- Price per piece: " ++ formatPrice d.unitPrice ++ "\n")
  ++ (if 0 < d.discount then
        "- Discount: " ++ toString d.discount ++ "% off\n"
      else "")
  ++ ("- Total: " ++ formatPrice d.finalPrice ++ "\n")
  ++ ("\nDelivery to " ++ BUSINESS.LOCATION ++ ".\n\nThank you! 😊")

/-- The formatter of the source produces exactly the message shape the
specification lists. -/
theorem generateOrderMessage_eq_spec (d : OrderDetails) :
    generateOrderMessage d = specOrderMessage d := by
  simp only [generateOrderMessage, specOrderMessage]
  split_ifs <;>
    simp only [String.append_assoc, String.append_empty, String.empty_append]

/--
C8: for every valid order (base set), the order message is the
concatenation, in order, of the greeting naming the business, the
quantity-and-base sentence with plural pieces exactly when the quantity
exceeds one, a toppings clause iff toppings are non-empty, an extras
clause iff extras are non-empty, the Order Summary block with base, a
toppings line iff any, an add-ons line iff any, quantity, price per
piece, a discount line iff the discount percent is positive and the
total, then the delivery line and the thank-you line.
-/
theorem order_message_structure (s : SelectionState) (b : BuilderOption)
    (h : s.base = some b) :
    createOrderMessage s = specOrderMessage
      { baseName := b.name
        toppings := s.toppings.map (fun t => t.name)
        extras := s.extras.map (fun e => e.name)
        quantity := s.quantity
        unitPrice := (computePricing s).unitPrice
        discount := (computePricing s).discount
        finalPrice := (computePricing s).finalPrice } := by
  unfold createOrderMessage
  rw [h]
  exact generateOrderMessage_eq_spec _

/-- Witness for C8 at a concrete valid order. -/
theorem order_message_structure_witness :
    ({ base := some { id := "classic", name := "Classic Fudge Brownie", price := 150 }
       toppings := [ { id := "chocochips", name := "Chocolate Chips", price := 30 } ]
       extras := []
       quantity := 12 } : SelectionState).base =
      some { id := "classic", name := "Classic Fudge Brownie", price := 150 }
    ∧ createOrderMessage
        { base := some { id := "classic", name := "Classic Fudge Brownie", price := 150 }
          toppings := [ { id := "chocochips", name := "Chocolate Chips", price := 30 } ]
          extras := []
          quantity := 12 } =
      specOrderMessage
        { baseName := ({ id := "classic", name := "Classic Fudge Brownie", price := 150 } : BuilderOption).name
          toppings := [ ( { id := "chocochips", name := "Chocolate Chips", price := 30 } : BuilderOption) ].map (fun t => t.name)
          extras := ([] : List BuilderOption).map (fun e => e.name)
          quantity := 12
          unitPrice := (computePricing
            { base := some { id := "classic", name := "Classic Fudge Brownie", price := 150 }
              toppings := [ { id := "chocochips", name := "Chocolate Chips", price := 30 } ]
              extras := []
              quantity := 12 }).unitPrice
          discount := (computePricing
            { base := some { id := "classic", name := "Classic Fudge Brownie", price := 150 }
              toppings := [ { id := "chocochips", name := "Chocolate Chips", price := 30 } ]
              extras := []
              quantity := 12 }).discount
          finalPrice := (computePricing
            { base := some { id := "classic", name := "Classic Fudge Brownie", price := 150 }
              toppings := [ { id := "chocochips", name := "Chocolate Chips", price := 30 } ]
              extras := []
              quantity := 12 }).finalPrice } :=
  ⟨rfl, order_message_structure
    { base := some { id := "classic", name := "Classic Fudge Brownie", price := 150 }
      toppings := [ { id := "chocochips", name := "Chocolate Chips", price := 30 } ]
      extras := []
      quantity := 12 }
    { id := "classic", name := "Classic Fudge Brownie", price := 150 } rfl⟩

/--
C10: on a selection state with non-negative prices, non-negative
quantity and a matched discount percent within 0 and 100, the pricing
output satisfies that the final price is non-negative and at most the
subtotal.
-/
theorem discount_bounds_final_price (s : SelectionState)
    (hbase : ∀ b, s.base = some b → 0 ≤ b.price)
    (htop : ∀ t ∈ s.toppings, 0 ≤ t.price)
    (hext : ∀ e ∈ s.extras, 0 ≤ e.price)
    (hq : 0 ≤ s.quantity)
    (hd0 : 0 ≤ (computePricing s).discount)
    (hd100 : (computePricing s).discount ≤ 100) :
    0 ≤ (computePricing s).finalPrice
    ∧ (computePricing s).finalPrice ≤ (computePricing s).totalPrice := by
  have hunit : 0 ≤ (computePricing s).unitPrice := by
    rw [computePricing_unitPrice]
    have h1 : 0 ≤ (match s.base with
        | some b => b.price
        | none => (0 : ℚ)) := by
      cases hb : s.base with
      | none => exact le_refl 0
      | some b => exact hbase b hb
    have h2 : 0 ≤ (s.toppings.map (fun t => t.price)).sum := by
      refine List.sum_nonneg ?_
      intro x hx
      rcases List.mem_map.mp hx with ⟨t, ht, rfl⟩
      exact htop t ht
    have h3 : 0 ≤ (s.extras.map (fun e => e.price)).sum := by
      refine List.sum_nonneg ?_
      intro x hx
      rcases List.mem_map.mp hx with ⟨e, he, rfl⟩
      exact hext e he
    exact add_nonneg (add_nonneg h1 h2) h3
  have htotal : 0 ≤ (computePricing s).totalPrice := by
    have heq : (computePricing s).totalPrice =
        (computePricing s).unitPrice * (s.quantity : ℚ) := rfl
    rw [heq]
    exact mul_nonneg hunit (by exact_mod_cast hq)
  have hfinal : (computePricing s).finalPrice =
      (computePricing s).totalPrice
        - (computePricing s).totalPrice * (computePricing s).discount / 100 := rfl
  constructor
  · rw [hfinal, sub_nonneg, mul_div_assoc]
    calc (computePricing s).totalPrice * ((computePricing s).discount / 100)
        ≤ (computePricing s).totalPrice * 1 := by
          refine mul_le_mul_of_nonneg_left ?_ htotal
          rw [div_le_one (by norm_num)]
          exact hd100
      _ = (computePricing s).totalPrice := mul_one _
  · rw [hfinal]
    exact sub_le_self _ (div_nonneg (mul_nonneg htotal hd0) (by norm_num))

/-- Witness for C10 at a concrete discounted order. -/
theorem discount_bounds_final_price_witness :
    0 ≤ (computePricing
        { base := some { id := "classic", name := "Classic Fudge Brownie", price := 150 }
          toppings := []
          extras := []
          quantity := 12 }).finalPrice
    ∧ (computePricing
        { base := some { id := "classic", name := "Classic Fudge Brownie", price := 150 }
          toppings := []
          extras := []
          quantity := 12 }).finalPrice ≤
      (computePricing
        { base := some { id := "classic", name := "Classic Fudge Brownie", price := 150 }
          toppings := []
          extras := []
          quantity := 12 }).totalPrice :=
  discount_bounds_final_price
    { base := some { id := "classic", name := "Classic Fudge Brownie", price := 150 }
      toppings := []
      extras := []
      quantity := 12 }
    (by
      intro b hb
      have hb' := Option.some.inj hb
      subst hb'
      norm_num)
    (by intro t ht; cases ht)
    (by intro e he; cases he)
    (by norm_num)
    (by decide)
    (by decide)

/--
C9: for every message string, the WhatsApp deep-link builder returns the
messaging-channel base URL followed by the query marker and the
percent-encoded message.
-/
theorem whatsapp_url_format (m : String) :
    buildWhatsAppUrl m = SOCIAL_URLS.WHATSAPP ++ "?text=" ++ encodeURIComponent m
    ∧ buildWhatsAppUrl m = "https://wa.me/9779849805290?text=" ++ encodeURIComponent m :=
  ⟨rfl, rfl⟩

end CocoBakes
